import Mathlib

set_option maxRecDepth 100000
set_option maxHeartbeats 1000000

/-!
Verification development for the UniBot ingestion pipeline
(`college_scraper.py`, `pdf_processor.py`, `scrape_tracker.py`,
`scrape_checkpoint.py`, `rag_system.py`).

Python strings are modelled as `List Char`; machine reals (floats) are
modelled as exact rationals `ℚ` built from `mkRat`; fallible operations
return `Option`; external collaborators (network fetches, PDF parsing
libraries, the vector store) are modelled as explicit parameters.
-/

/-- Python strings are modelled as lists of characters. -/
abbrev Str := List Char

/-- Models Python `str.lower` on a single character (ASCII case mapping,
which is the fragment exercised by URLs and extracted text). -/
def lowerChar (c : Char) : Char :=
  match c with
  | 'A' => 'a'
  | 'B' => 'b'
  | 'C' => 'c'
  | 'D' => 'd'
  | 'E' => 'e'
  | 'F' => 'f'
  | 'G' => 'g'
  | 'H' => 'h'
  | 'I' => 'i'
  | 'J' => 'j'
  | 'K' => 'k'
  | 'L' => 'l'
  | 'M' => 'm'
  | 'N' => 'n'
  | 'O' => 'o'
  | 'P' => 'p'
  | 'Q' => 'q'
  | 'R' => 'r'
  | 'S' => 's'
  | 'T' => 't'
  | 'U' => 'u'
  | 'V' => 'v'
  | 'W' => 'w'
  | 'X' => 'x'
  | 'Y' => 'y'
  | 'Z' => 'z'
  | c => c

/-- Models Python `str.lower` on a whole string. -/
def lowerStr (s : Str) : Str := s.map lowerChar

/-- Models Python `url.rstrip('/')`: remove all trailing slash characters. -/
def rstripSlash (s : Str) : Str :=
  (s.reverse.dropWhile (fun c => c = '/')).reverse

/-- Models `if '#' in url: url = url.split('#')[0]` from `_normalize_url`:
keep the part of the string before the first `'#'`. -/
def dropFragment (s : Str) : Str :=
  if '#' ∈ s then s.takeWhile (fun c => c ≠ '#') else s

/-- Models `CollegeScraper._normalize_url` (college_scraper.py lines
242-248): strip trailing slashes, drop the fragment, lowercase. -/
def normalize_url (url : Str) : Str :=
  lowerStr (dropFragment (rstripSlash url))

/-! ### Generic string helpers (models of Python str operations) -/

/-- Models Python whitespace (the characters matched by `\s` and split by
`str.split()` for ASCII text). -/
def isWsChar (c : Char) : Bool :=
  c = ' ' || c = '\t' || c = '\n' || c = '\r' || c = '\x0b' || c = '\x0c'

/-- Models Python `str.strip()`: drop leading and trailing whitespace. -/
def stripWs (s : Str) : Str :=
  ((s.dropWhile isWsChar).reverse.dropWhile isWsChar).reverse

/-- One `foldr` step of `str.split()` (whitespace splitting). -/
def splitWsStep (c : Char) (acc : List Str) : List Str :=
  if isWsChar c then [] :: acc
  else match acc with
    | [] => [[c]]
    | w :: t => (c :: w) :: t

/-- Models Python `str.split()` with no separator: split on whitespace
runs, dropping empty pieces. -/
def splitWs (s : Str) : List Str :=
  (s.foldr splitWsStep []).filter (fun w => w ≠ [])

/-- One `foldr` step of `str.split(sep)`. -/
def splitOnStep (sep : Char) (c : Char) (acc : List Str) : List Str :=
  if c = sep then [] :: acc
  else match acc with
    | [] => [[c]]
    | w :: t => (c :: w) :: t

/-- Models Python `str.split(sep)` for a one-character separator: keeps
empty pieces, and the split of the empty string is `[""]`. -/
def splitOnChar (sep : Char) (s : Str) : List Str :=
  s.foldr (splitOnStep sep) [[]]

/-- Collapse consecutive spaces into one (helper for `re.sub(r'\s+', ' ', t)`). -/
def squeezeSpaces : Str → Str
  | [] => []
  | [c] => [c]
  | a :: b :: t =>
    if a = ' ' && b = ' ' then squeezeSpaces (b :: t) else a :: squeezeSpaces (b :: t)

/-- Models `re.sub(r'\s+', ' ', t)`: every whitespace run becomes a single
space. -/
def collapseWs (t : Str) : Str :=
  squeezeSpaces (t.map (fun c => if isWsChar c then ' ' else c))

/-- Models Python `c.isalnum()` for ASCII text. -/
def isAlnumChar (c : Char) : Bool := c.isAlpha || c.isDigit

/-- Models the Python substring test `pat in s`. -/
def containsSub (pat s : Str) : Bool :=
  s.tails.any (fun t => pat.isPrefixOf t)

/-- Case-insensitive suffix test: models `re.search(pat + '$', url, re.IGNORECASE)`
for a literal pattern, i.e. `lower(url).endswith(suf)`. -/
def endsWithLower (url : Str) (suf : Str) : Bool := suf.isSuffixOf (lowerStr url)

/-- Case-insensitive substring test: models `re.search(pat, url, re.IGNORECASE)`
for a literal pattern. -/
def containsLower (url : Str) (pat : Str) : Bool := containsSub pat (lowerStr url)

/-- Total length of a list of words (for average-word-length computations). -/
def sumLens (ws : List Str) : ℕ := (ws.map List.length).sum

/-- Word characters for the `\b` (word boundary) regex assertion:
`[a-zA-Z0-9_]`. -/
def isWordChar (c : Char) : Bool := c.isAlpha || c.isDigit || c = '_'

/-- A position boundary for `\b`: start of string or a non-word character
before the match. -/
def boundaryB : Option Char → Bool
  | none => true
  | some c => !isWordChar c

/-- The boundary after a match: end of string or a non-word character. -/
def boundaryAfterB (s : Str) : Bool :=
  match s.head? with
  | none => true
  | some c => !isWordChar c

/-- Scanner for `re.search(r'\b' + w + r'\b', s)` with a literal word `w`:
tracks the previous character to decide word boundaries. -/
def occursAsWordAux (w : Str) : Option Char → Str → Bool
  | prev, [] => boundaryB prev && decide (w = [])
  | prev, c :: t =>
    (boundaryB prev && w.isPrefixOf (c :: t) && boundaryAfterB ((c :: t).drop w.length)) ||
    occursAsWordAux w (some c) t

/-- Models `re.search(r'\bw\b', s)` for a literal word `w`. -/
def occursAsWord (w s : Str) : Bool := occursAsWordAux w none s

/-- ASCII letter test, the character class `[a-zA-Z]`. -/
def isAsciiLetter (c : Char) : Bool :=
  ('a' ≤ c && c ≤ 'z') || ('A' ≤ c && c ≤ 'Z')

/-- Lowercase ASCII letter test, the character class `[a-z]`. -/
def isLowerAZ (c : Char) : Bool := 'a' ≤ c && c ≤ 'z'

/-- Does `\s+[a-zA-Z]\s+[a-zA-Z]\s+[a-zA-Z]` match at the start of `s`?
Because whitespace and letters are disjoint the greedy match is
deterministic. -/
def tripleSpacedAt (s : Str) : Bool :=
  let r1 := s.dropWhile isWsChar
  if s.takeWhile isWsChar = [] then false
  else match r1 with
    | c1 :: r2 =>
      if isAsciiLetter c1 then
        let r3 := r2.dropWhile isWsChar
        if r2.takeWhile isWsChar = [] then false
        else match r3 with
          | c2 :: r4 =>
            if isAsciiLetter c2 then
              let r5 := r4.dropWhile isWsChar
              if r4.takeWhile isWsChar = [] then false
              else match r5 with
                | c3 :: _ => isAsciiLetter c3
                | [] => false
            else false
          | [] => false
      else false
    | [] => false

/-- Models `re.search(r'\s+[a-zA-Z]\s+[a-zA-Z]\s+[a-zA-Z]', t)`. -/
def hasTripleSpacedLetter (t : Str) : Bool := t.tails.any tripleSpacedAt

/-- Does `[a-z]{3,}\s+[a-z]{3,}` match at the start of `s` (boundary
already checked by the caller)? -/
def twoLongHere (s : Str) : Bool :=
  (s.takeWhile isLowerAZ).length ≥ 3 &&
  (let r1 := s.dropWhile isLowerAZ
   r1.takeWhile isWsChar ≠ [] &&
   ((r1.dropWhile isWsChar).takeWhile isLowerAZ).length ≥ 3)

/-- Scanner for `re.search(r'\b[a-z]{3,}\s+[a-z]{3,}', s)`. -/
def twoLongWordsAux : Option Char → Str → Bool
  | _, [] => false
  | prev, c :: t => (boundaryB prev && twoLongHere (c :: t)) || twoLongWordsAux (some c) t

/-- Models `re.search(r'\b[a-z]{3,}\s+[a-z]{3,}', s)`. -/
def twoLongWordsMatch (s : Str) : Bool := twoLongWordsAux none s

/-! ### Exact rational arithmetic helpers

Python floats are modelled as exact rationals.  Batteries marks the `Rat`
field operations `@[irreducible]`, so the model uses kernel-computable
wrappers built on `mkRat`; the bridge lemmas below identify them with the
ordinary `ℚ` operations. -/

/-- Kernel-computable rational addition (equals `a + b`). -/
def qAdd (a b : ℚ) : ℚ := mkRat (a.num * b.den + b.num * a.den) (a.den * b.den)

/-- Kernel-computable rational subtraction (equals `a - b`). -/
def qSub (a b : ℚ) : ℚ := mkRat (a.num * b.den - b.num * a.den) (a.den * b.den)

/-- Kernel-computable rational multiplication (equals `a * b`). -/
def qMul (a b : ℚ) : ℚ := mkRat (a.num * b.num) (a.den * b.den)

/-- Kernel-computable minimum on `ℚ`. -/
def qMin (a b : ℚ) : ℚ := if a ≤ b then a else b

/-- Kernel-computable maximum on `ℚ`. -/
def qMax (a b : ℚ) : ℚ := if a ≤ b then b else a

/-! ### PDFProcessor (pdf_processor.py) -/

/-- Models `PDFProcessor.is_pdf_url` (pdf_processor.py lines 53-57):
`url_lower.endswith('.pdf') or 'application/pdf' in url_lower`. -/
def is_pdf_url (url : Str) : Bool :=
  endsWithLower url ((".pdf").toList) ||
  containsSub (("application/pdf").toList) (lowerStr url)

/-- Models `PDFProcessor._clean_text` (lines 135-153): collapse whitespace,
split into lines, keep stripped lines that are longer than 2 characters or
contain an alphanumeric character, rejoin and strip. -/
def clean_text (t : Str) : Str :=
  if t = [] then []
  else
    let t1 := collapseWs t
    let lines := splitOnChar '\n' t1
    let cleaned := lines.filterMap (fun l =>
      let l2 := stripWs l
      if 2 < l2.length ∨ (l2 ≠ [] ∧ l2.any isAlnumChar) then some l2 else none)
    stripWs (List.intercalate ['\n'] cleaned)

/-- Condition "fewer than 10 words" from `_is_garbled_text`. -/
def garbledFewWords (t : Str) : Bool := (splitWs t).length < 10

/-- Condition "more than 30% single-character words" from `_is_garbled_text`
(`len(words) > 0 and single_char_words / len(words) > 0.3`). -/
def garbledManySingles (t : Str) : Bool :=
  let words := splitWs t
  decide (0 < words.length) &&
  decide (mkRat 3 10 < mkRat ((words.filter (fun w => w.length = 1)).length) words.length)

/-- Condition "spaced single letters covering the text" from
`_is_garbled_text`: the `\s+[a-zA-Z]\s+[a-zA-Z]\s+[a-zA-Z]` pattern occurs
and spaces are more than 40% of the characters. -/
def garbledSpacedSingles (t : Str) : Bool :=
  hasTripleSpacedLetter t &&
  decide (qMul (mkRat t.length 1) (mkRat 4 10) < mkRat (t.count ' ') 1)

/-- Condition "average word length below 2" from `_is_garbled_text`. -/
def garbledLowAvg (t : Str) : Bool :=
  let words := splitWs t
  decide (0 < words.length) &&
  decide (mkRat (sumLens words) words.length < mkRat 2 1)

/-- The common-word/number regex patterns of `_is_garbled_text` (lines
188-192), evaluated against `text.lower()`: `\bthe\b`, `\band\b`, `\bis\b`,
`\bto\b`, `\bof\b`, `\b[a-z]{3,}\s+[a-z]{3,}` and `\d+`. -/
def commonPatternCount (t : Str) : ℕ :=
  let low := lowerStr t
  ([occursAsWord (("the").toList) low,
    occursAsWord (("and").toList) low,
    occursAsWord (("is").toList) low,
    occursAsWord (("to").toList) low,
    occursAsWord (("of").toList) low,
    twoLongWordsMatch low,
    low.any Char.isDigit]).count true

/-- Condition "fewer than 2 common-pattern matches" from `_is_garbled_text`. -/
def garbledFewPatterns (t : Str) : Bool := commonPatternCount t < 2

/-- Models `PDFProcessor._is_garbled_text` (pdf_processor.py lines 155-198),
with the source's early returns written as a chain of conditionals. -/
def is_garbled_text (t : Str) : Bool :=
  if t = [] ∨ t.length < 50 then true
  else if garbledFewWords t then true
  else if garbledManySingles t then true
  else if garbledSpacedSingles t then true
  else if garbledLowAvg t then true
  else if garbledFewPatterns t then true
  else false

/-- The five garbled-text conditions exactly as the specification lists
them (word count, single-character ratio, spaced-letter pattern, average
word length, common-pattern matches) — without any length precondition. -/
def garbled_claim_conditions (t : Str) : Bool :=
  garbledFewWords t || garbledManySingles t || garbledSpacedSingles t ||
  garbledLowAvg t || garbledFewPatterns t

/-- The common words list of `_calculate_text_quality_score` (line 223). -/
def commonScoreWords : List Str :=
  [("the").toList, ("and").toList, ("is").toList, ("to").toList, ("of").toList,
   ("in").toList, ("for").toList, ("a").toList, ("an").toList]

/-- Models `PDFProcessor._calculate_text_quality_score` (pdf_processor.py
lines 200-234): start at 1.0, subtract `single_char_ratio * 0.5`, subtract
`(space_ratio - 0.3) * 0.5` when the space ratio exceeds 0.3, add
`min(found_common / 10, 0.2)` for common-word substrings, add 0.1 when the
average word length exceeds 4, clamp to [0, 1].  Float arithmetic is
modelled exactly over `ℚ`. -/
def calculate_text_quality_score (t : Str) : ℚ :=
  if t = [] ∨ t.length < 50 then mkRat 0 1
  else
    let words := splitWs t
    let score1 : ℚ :=
      if 0 < words.length then
        qSub (mkRat 1 1)
          (qMul (mkRat ((words.filter (fun w => w.length = 1)).length) words.length) (mkRat 1 2))
      else mkRat 1 1
    let spaceRat : ℚ := if 0 < t.length then mkRat (t.count ' ') t.length else mkRat 0 1
    let score2 :=
      if mkRat 3 10 < spaceRat then qSub score1 (qMul (qSub spaceRat (mkRat 3 10)) (mkRat 1 2))
      else score1
    let found := (commonScoreWords.filter (fun w => containsSub w (lowerStr t))).length
    let score3 := qAdd score2 (qMin (mkRat found 10) (mkRat 2 10))
    let score4 :=
      if 0 < words.length ∧ mkRat 4 1 < mkRat (sumLens words) words.length then
        qAdd score3 (mkRat 1 10)
      else score3
    qMax (mkRat 0 1) (qMin (mkRat 1 1) score4)

/-- The dictionary returned by a successful `PDFProcessor.extract_text`. -/
structure PdfDoc where
  url : Str
  content : Str
  title : Str
  quality_score : ℚ
  page_count : ℕ
deriving DecidableEq, Inhabited

/-- Models `os.path.basename` for URL paths: the part after the last slash. -/
def basename (p : Str) : Str := (splitOnChar '/' p).getLastD []

/-- Fuel-indexed scanner for `s.replace('.pdf', '')`; the fuel is the
string length, which bounds the number of scan steps. -/
def replaceDotPdfAux : ℕ → Str → Str
  | 0, s => s
  | _ + 1, [] => []
  | fuel + 1, c :: t =>
    if ((".pdf").toList).isPrefixOf (c :: t) then replaceDotPdfAux fuel (t.drop 3)
    else c :: replaceDotPdfAux fuel t

/-- Models `s.replace('.pdf', '')`: remove every occurrence of `.pdf`,
scanning left to right. -/
def replaceDotPdf (s : Str) : Str := replaceDotPdfAux s.length s

/-- Models the title construction of `extract_text` (line 312):
`os.path.basename(url).replace('.pdf', '').replace('_', ' ').replace('-', ' ')`. -/
def pdfTitleFromUrl (url : Str) : Str :=
  (replaceDotPdf (basename url)).map (fun c => if c = '_' then ' ' else if c = '-' then ' ' else c)

/-- The strategy-selection half of `PDFProcessor.extract_text`
(pdf_processor.py lines 248-302): pdfplumber text, falling back to PyPDF2
on short output, then to OCR when available; `none` when every strategy
stays under 50 characters; the survivor is cleaned, and a garbled
pdfplumber result is replaced by the cleaned PyPDF2 text when the latter
is long enough and not garbled. -/
def selectPdfText (plumberText pypdf2Text ocrText : Str) (ocrAvailable : Bool) :
    Option Str :=
  let step1 :=
    if plumberText = [] ∨ plumberText.length < 50 then (pypdf2Text, false)
    else (plumberText, true)
  let step2 :=
    if (step1.1 = [] ∨ step1.1.length < 50) ∧ ocrAvailable ∧
        ocrText ≠ [] ∧ 50 < ocrText.length then (ocrText, step1.2)
    else step1
  if step2.1 = [] ∨ step2.1.length < 50 then none
  else
    let text2 := clean_text step2.1
    if is_garbled_text text2 ∧ step2.2 then
      let alt := clean_text pypdf2Text
      if alt ≠ [] ∧ 50 ≤ alt.length ∧ ¬ is_garbled_text alt then some alt else some text2
    else some text2

/-- The quality-gate half of `PDFProcessor.extract_text` (lines 304-321):
score the selected text, discard below 0.3, otherwise build the result
dictionary. -/
def extract_text_core (text3 : Str) (pageCount : ℕ) (url : Str) : Option PdfDoc :=
  let q := calculate_text_quality_score text3
  if q < mkRat 3 10 then none
  else some { url := url, content := text3, title := pdfTitleFromUrl url,
              quality_score := q, page_count := pageCount }

/-- Models `PDFProcessor.extract_text` (pdf_processor.py lines 236-321).
The external extraction libraries are modelled as explicit parameters:
`downloaded` is whether `download_pdf` returned bytes (magic-byte check
included), and `plumberText`, `pypdf2Text`, `ocrText` are the strings the
three strategies would return on those bytes (`ocrAvailable` models
`TESSERACT_AVAILABLE and PDF2IMAGE_AVAILABLE`). -/
def extract_text (downloaded : Bool) (plumberText pypdf2Text ocrText : Str)
    (ocrAvailable : Bool) (pageCount : ℕ) (url : Str) : Option PdfDoc :=
  if ¬ downloaded then none
  else
    match selectPdfText plumberText pypdf2Text ocrText ocrAvailable with
    | none => none
    | some text3 => extract_text_core text3 pageCount url

/-! ### URL parsing (models of urllib.parse.urlparse) and the URL
classifier of CollegeScraper -/

/-- Characters allowed in a URL scheme after the leading letter. -/
def isSchemeChar (c : Char) : Bool :=
  c.isAlpha || c.isDigit || c = '+' || c = '-' || c = '.'

/-- Models the scheme split of `urllib.parse.urlparse`: if the text before
the first `':'` is a nonempty valid scheme starting with a letter, the
result is `(scheme lowered, rest)`, otherwise no scheme is recognised. -/
def splitScheme (u : Str) : Str × Str :=
  let pre := u.takeWhile (fun c => c ≠ ':')
  if pre.length < u.length ∧ pre ≠ [] ∧ pre.all isSchemeChar ∧ (pre.headD ' ').isAlpha then
    (lowerStr pre, u.drop (pre.length + 1))
  else ([], u)

/-- Models the netloc split of `urllib.parse.urlparse`: after the scheme,
a part starting with `//` contributes a netloc running to the next
`/`, `?` or `#`. -/
def splitNetloc (r : Str) : Str × Str :=
  if (['/', '/'] : Str).isPrefixOf r then
    let r2 := r.drop 2
    (r2.takeWhile (fun c => c ≠ '/' ∧ c ≠ '?' ∧ c ≠ '#'),
     r2.dropWhile (fun c => c ≠ '/' ∧ c ≠ '?' ∧ c ≠ '#'))
  else ([], r)

/-- Models `urlparse(u).netloc`. -/
def urlNetloc (u : Str) : Str := (splitNetloc (splitScheme u).2).1

/-- Models `urlparse(u).path`: what remains after removing scheme, netloc,
fragment, and query. -/
def urlPath (u : Str) : Str :=
  ((splitNetloc (splitScheme u).2).2.takeWhile (fun c => c ≠ '#')).takeWhile (fun c => c ≠ '?')

/-- Models `len([p for p in path.split('/') if p])`: the number of
non-empty path segments. -/
def segCount (path : Str) : ℕ :=
  ((splitOnChar '/' path).filter (fun p => p ≠ [])).length

/-- Models `CollegeScraper._get_url_depth` (college_scraper.py lines
232-240): the difference of non-empty path-segment counts of the URL and
of the base URL, as a (possibly negative) integer. -/
def get_url_depth (baseUrl url : Str) : ℤ :=
  (segCount (urlPath url) : ℤ) - (segCount (urlPath baseUrl) : ℤ)

/-- The depth gate used by `scrape_page` (line 317, pass = not returning
`None`) and by the link-discovery filter (line 492): the computed depth is
at most `max_depth`. -/
def depth_check (baseUrl url : Str) (maxDepth : ℕ) : Bool :=
  decide (get_url_depth baseUrl url ≤ (maxDepth : ℤ))

/-- Models `CollegeScraper._is_valid_url` (college_scraper.py lines
50-80): same netloc as the base URL and no skip pattern hit.  The regex
skip patterns are literal suffix/substring tests with `re.IGNORECASE`,
and `\.pdf$` is only skipped when PDFs are disabled. -/
def is_valid_url (includePdfs : Bool) (baseUrl url : Str) : Bool :=
  let skipHit :=
    endsWithLower url ((".doc").toList) || endsWithLower url ((".docx").toList) ||
    endsWithLower url ((".xls").toList) || endsWithLower url ((".xlsx").toList) ||
    endsWithLower url ((".zip").toList) || endsWithLower url ((".rar").toList) ||
    endsWithLower url ((".jpg").toList) || endsWithLower url ((".jpeg").toList) ||
    endsWithLower url ((".png").toList) || endsWithLower url ((".gif").toList) ||
    endsWithLower url ((".svg").toList) || endsWithLower url ((".ico").toList) ||
    endsWithLower url ((".webp").toList) ||
    url.contains '#' ||
    containsLower url (("javascript:").toList) ||
    containsLower url (("mailto:").toList) ||
    containsLower url (("tel:").toList) ||
    (!includePdfs && endsWithLower url ((".pdf").toList))
  decide (urlNetloc url = urlNetloc baseUrl) && !skipHit

/-! ### Crawler (CollegeScraper.scrape_website) -/

/-- A `ScrapedDocument`: the content dictionary produced for one page or
PDF (quality score and page count are present only for PDFs). -/
structure ScrapedDoc where
  url : Str
  title : Str := []
  content : Str
  links : List Str := []
  quality_score : Option ℚ := none
  page_count : Option ℕ := none
  isPdfDoc : Bool := false
deriving DecidableEq, Inhabited

/-- What the page-render backend yields for one successfully loaded page:
the extracted title and main content (after `_extract_text_content`, i.e.
whitespace-normalised), the absolute hrefs on the page (after `urljoin`)
and the hrefs the in-page script classifies as PDF links (including
anchor-text matches). -/
structure FetchResult where
  title : Str := []
  content : Str := []
  hrefs : List Str := []
  pdfHrefs : List Str := []
deriving Inhabited

/-- The crawl parameters together with the external world: `fetch` models
a page navigation (`None` = timeout/navigation failure, which the source
absorbs) and `pdfExtract` models `PDFProcessor.extract_text`. -/
structure CrawlEnv where
  baseUrl : Str
  maxPages : ℕ := 500
  maxDepth : ℕ := 8
  includePdfs : Bool := true
  fetch : Str → Option FetchResult
  pdfExtract : Str → Option PdfDoc
  now : Str := []

/-- The persisted checkpoint snapshot (scrape_checkpoint.py): one full
image of a crawl session. -/
structure CheckpointData where
  scraped_content : List ScrapedDoc := []
  pdf_urls : List Str := []
  visited_urls : List Str := []
  urls_to_visit : List Str := []
  scraped_count : ℕ := 0
  last_updated : Option Str := none
deriving DecidableEq, Inhabited

/-- The mutable state of one `scrape_website` session: results, PDF
worklist, session visited set, frontier, the `self.scraped_urls` set, the
tracker set (scrape_tracker.py), and the checkpoint bookkeeping. -/
structure CrawlState where
  scraped_content : List ScrapedDoc := []
  pdf_urls : List Str := []
  visited_urls : List Str := []
  urls_to_visit : List Str := []
  scraped_urls : List Str := []
  tracker : List Str := []
  lastCheckpoint : ℕ := 0
  checkpointData : CheckpointData := {}
deriving DecidableEq, Inhabited

/-- Python `set.add`, on the list representation of a set. -/
def addToSet (s : List Str) (u : Str) : List Str := if u ∈ s then s else s ++ [u]

/-- Models the filtering part of `CollegeScraper._get_links` (lines
190-208): keep hrefs accepted by `_is_valid_url`, append PDF hrefs not
already kept, then `list(set(...))` de-duplication (the set order is
unspecified in the source; the model keeps a deterministic order). -/
def get_links (env : CrawlEnv) (fr : FetchResult) : List Str :=
  let valid1 := fr.hrefs.filter (fun l => is_valid_url env.includePdfs env.baseUrl l)
  let valid2 := fr.pdfHrefs.foldl
    (fun acc p => if p ∉ acc ∧ is_valid_url env.includePdfs env.baseUrl p then acc ++ [p] else acc)
    valid1
  valid2.dedup

/-- Models `CollegeScraper.scrape_page` (lines 292-374) including the
`scrape_pdf` branch: returns the content dictionary (or `None`) and the
updated `self.scraped_urls` set.  A failed navigation marks the
normalised URL as scraped and yields `None`; a page with at most 50
characters of content is discarded. -/
def scrape_page (env : CrawlEnv) (scrapedUrls : List Str) (url : Str) :
    Option ScrapedDoc × List Str :=
  if env.includePdfs ∧ is_pdf_url url then
    let normalized := normalize_url url
    if normalized ∈ scrapedUrls then (none, scrapedUrls)
    else
      match env.pdfExtract url with
      | some d =>
        (some { url := url, title := d.title, content := d.content,
                quality_score := some d.quality_score,
                page_count := some d.page_count, isPdfDoc := true },
         addToSet scrapedUrls normalized)
      | none => (none, addToSet scrapedUrls normalized)
  else
    let normalized := normalize_url url
    if normalized ∈ scrapedUrls then (none, scrapedUrls)
    else if ¬ is_valid_url env.includePdfs env.baseUrl url then (none, scrapedUrls)
    else if ¬ depth_check env.baseUrl url env.maxDepth then (none, scrapedUrls)
    else
      match env.fetch url with
      | none => (none, addToSet scrapedUrls normalized)
      | some fr =>
        let links := get_links env fr
        let su := addToSet scrapedUrls normalized
        if 50 < fr.content.length then
          (some { url := url, title := fr.title, content := fr.content, links := links }, su)
        else (none, su)

/-- One step of the link-discovery loop (college_scraper.py lines
475-494): PDF links go to the PDF worklist (tracker-marked under their
normalised form), other links are enqueued when new, valid, and within
the depth budget. -/
def processLink (env : CrawlEnv) (s : CrawlState) (link : Str) : CrawlState :=
  let normalizedLink := normalize_url link
  if env.includePdfs ∧ is_pdf_url link then
    if link ∉ s.pdf_urls ∧ normalizedLink ∉ s.scraped_urls then
      { s with pdf_urls := s.pdf_urls ++ [link],
               scraped_urls := s.scraped_urls ++ [normalizedLink],
               tracker := addToSet s.tracker normalizedLink }
    else s
  else
    if normalizedLink ∉ s.visited_urls ∧ normalizedLink ∉ s.urls_to_visit ∧
        normalizedLink ∉ s.scraped_urls ∧
        is_valid_url env.includePdfs env.baseUrl link ∧
        depth_check env.baseUrl normalizedLink env.maxDepth then
      { s with urls_to_visit := s.urls_to_visit ++ [normalizedLink] }
    else s

/-- The checkpoint image saved by `ScrapeCheckpoint.save`. -/
def snapshot (env : CrawlEnv) (s : CrawlState) : CheckpointData :=
  { scraped_content := s.scraped_content, pdf_urls := s.pdf_urls,
    visited_urls := s.visited_urls, urls_to_visit := s.urls_to_visit,
    scraped_count := s.scraped_content.length, last_updated := some env.now }

/-- The periodic checkpoint save (lines 503-507): save when at least 10
pages were scraped since the last save. -/
def maybeCheckpoint (env : CrawlEnv) (s : CrawlState) : CrawlState :=
  if 10 ≤ s.scraped_content.length - s.lastCheckpoint then
    { s with checkpointData := snapshot env s, lastCheckpoint := s.scraped_content.length }
  else s

/-- One iteration of the `while urls_to_visit and len(scraped_content) <
max_pages` loop of `scrape_website` (college_scraper.py lines 414-523):
pop the frontier head, skip already-seen URLs, divert PDFs to the
worklist, otherwise scrape the page, record the result, discover links,
and possibly checkpoint.  Navigation timeouts and errors are absorbed by
`scrape_page` returning `None` (both mark the normalised URL scraped). -/
def crawlStep (env : CrawlEnv) (s : CrawlState) : CrawlState :=
  match s.urls_to_visit with
  | [] => s
  | originalUrl :: rest =>
    let currentUrl := normalize_url originalUrl
    if currentUrl ∈ s.visited_urls ∨ currentUrl ∈ s.scraped_urls ∨ currentUrl ∈ s.tracker then
      { s with urls_to_visit := rest }
    else
      let s1 : CrawlState :=
        { s with urls_to_visit := rest, visited_urls := addToSet s.visited_urls currentUrl }
      let isPdf := env.includePdfs ∧ (is_pdf_url currentUrl ∨ is_pdf_url originalUrl ∨
        endsWithLower currentUrl ((".pdf").toList) ∨ endsWithLower originalUrl ((".pdf").toList))
      if isPdf then
        let pdfUrl := if originalUrl ≠ [] then originalUrl else currentUrl
        { s1 with
            pdf_urls := if pdfUrl ∈ s1.pdf_urls then s1.pdf_urls else s1.pdf_urls ++ [pdfUrl],
            scraped_urls := addToSet s1.scraped_urls currentUrl,
            tracker := addToSet s1.tracker currentUrl }
      else
        match scrape_page env s1.scraped_urls currentUrl with
        | (some doc, su) =>
          let s2 := { s1 with scraped_urls := su,
                              tracker := addToSet s1.tracker currentUrl,
                              scraped_content := s1.scraped_content ++ [doc] }
          maybeCheckpoint env (doc.links.foldl (processLink env) s2)
        | (none, su) => maybeCheckpoint env { s1 with scraped_urls := su }

/-- The loop guard `urls_to_visit and len(scraped_content) < max_pages`. -/
def crawlGuard (env : CrawlEnv) (s : CrawlState) : Bool :=
  !s.urls_to_visit.isEmpty && decide (s.scraped_content.length < env.maxPages)

/-- The HTML traversal loop, fuel-indexed: `none` means the fuel ran out
before the loop finished; `some s` is the state at normal exit. -/
def crawlLoop (env : CrawlEnv) : ℕ → CrawlState → Option CrawlState
  | 0, s => if crawlGuard env s then none else some s
  | fuel + 1, s => if crawlGuard env s then crawlLoop env fuel (crawlStep env s) else some s

/-- The checkpoint-resume condition of `scrape_website` (line 393):
`checkpoint.get('scraped_content') and checkpoint.get('last_updated')`
under Python truthiness. -/
def checkpointTruthy (cp : CheckpointData) : Bool :=
  !cp.scraped_content.isEmpty &&
  (match cp.last_updated with
   | some ts => !ts.isEmpty
   | none => false)

/-- The initial state of a session (college_scraper.py lines 392-412):
adopt the checkpoint when its `scraped_content` is non-empty and
`last_updated` is set, otherwise start from the normalised seed URLs.
`tracker0` is the tracker set loaded from disk at construction. -/
def initCrawlState (tracker0 : List Str) (cp : CheckpointData) (startUrls : List Str) :
    CrawlState :=
  if checkpointTruthy cp then
    { scraped_content := cp.scraped_content, pdf_urls := cp.pdf_urls,
      visited_urls := cp.visited_urls, urls_to_visit := cp.urls_to_visit,
      scraped_urls := [], tracker := tracker0,
      lastCheckpoint := cp.scraped_content.length, checkpointData := cp }
  else
    { scraped_content := [], pdf_urls := [], visited_urls := [],
      urls_to_visit := startUrls.map normalize_url,
      scraped_urls := [], tracker := tracker0, lastCheckpoint := 0, checkpointData := cp }

/-- One step of the PDF worklist pass (college_scraper.py lines 539-591):
skip worklist entries already in the tracker (under the raw worklist
string!), otherwise attempt extraction; success with more than 50
characters appends a result; in every attempted case the raw worklist
URL is marked in the tracker. -/
def pdfWorkStep (env : CrawlEnv) (s : CrawlState) (pdfUrl : Str) : CrawlState :=
  if pdfUrl ∈ s.tracker then s
  else
    match env.pdfExtract pdfUrl with
    | some d =>
      if 50 < d.content.length then
        let doc : ScrapedDoc :=
          { url := d.url, title := d.title, content := d.content,
            quality_score := some d.quality_score,
            page_count := some d.page_count, isPdfDoc := true }
        { s with scraped_content := s.scraped_content ++ [doc],
                 tracker := addToSet s.tracker pdfUrl }
      else { s with tracker := addToSet s.tracker pdfUrl }
    | none => { s with tracker := addToSet s.tracker pdfUrl }

/-- The PDF worklist pass (lines 530-598), run after the HTML loop. -/
def pdfPass (env : CrawlEnv) (s : CrawlState) : CrawlState :=
  if env.includePdfs ∧ s.pdf_urls ≠ [] then s.pdf_urls.foldl (pdfWorkStep env) s else s

/-- Models `CollegeScraper.scrape_website` (college_scraper.py lines
376-608): initialise (checkpoint or seeds), run the HTML loop, drain the
PDF worklist, save the final checkpoint.  The result is the final session
state; its `scraped_content` is the returned document list. -/
def scrape_website (env : CrawlEnv) (tracker0 : List Str) (cp : CheckpointData)
    (fuel : ℕ) (startUrls : List Str) : Option CrawlState :=
  (crawlLoop env fuel (initCrawlState tracker0 cp startUrls)).map (fun s1 =>
    let s2 := pdfPass env s1
    { s2 with checkpointData := snapshot env s2 })

/-! ### Corpus Ingestor (rag_system.py) -/

/-- The metadata of one stored chunk; only the `source` field matters for
deduplication. -/
structure ChunkMeta where
  source : Option Str := none
deriving DecidableEq, Inhabited

/-- Models `RAGSystem.get_existing_sources` (rag_system.py lines 60-74):
collect the `source` values of the stored chunk metadatas returned by
`collection.get(limit=10000)` — i.e. of at most the first 10000 stored
chunks. -/
def get_existing_sources (backend : List ChunkMeta) : List Str :=
  ((backend.take 10000).filterMap (fun m => m.source)).dedup

/-- The effective source of a document metadata after the
`meta['source'] = 'Unknown'` defaulting (lines 106-107). -/
def effSource (m : ChunkMeta) : Str := m.source.getD (("Unknown").toList)

/-- The metadata-length adjustment of `add_documents` (lines 88-93):
truncate to the text count and pad with empty metadata. -/
def padMetas (n : ℕ) (metas : List ChunkMeta) : List ChunkMeta :=
  metas.take n ++ List.replicate (n - metas.length) (⟨none⟩ : ChunkMeta)

/-- Fuel-indexed fixed-size splitter (chunk size 1000, overlap 200). -/
def splitTextAux : ℕ → Str → List Str
  | 0, t => [t]
  | fuel + 1, t => if t.length ≤ 1000 then [t] else t.take 1000 :: splitTextAux fuel (t.drop 800)

/-- Models the external `RecursiveCharacterTextSplitter` (chunk_size 1000,
chunk_overlap 200) at the granularity the claims need: a non-empty text
becomes one or more chunks, each of which inherits the document's
metadata. -/
def splitText (t : Str) : List Str := splitTextAux t.length t

/-- The result of one `add_documents` call: the backend contents after the
call, the number of documents added, and the number skipped as
duplicates. -/
structure AddResult where
  backend : List ChunkMeta
  addedDocs : ℕ
  skippedCount : ℕ
deriving DecidableEq

/-- One step of the document-building loop of `add_documents` (lines
103-114): empty texts are ignored, the metadata gets its `source`
defaulted, and a document whose source is among the pre-call existing
sources is counted skipped instead of kept. -/
def ingestFold (skipDuplicates : Bool) (existing : List Str)
    (acc : List (Str × ChunkMeta) × ℕ) (tm : Str × ChunkMeta) : List (Str × ChunkMeta) × ℕ :=
  if 0 < (stripWs tm.1).length then
    if skipDuplicates ∧ effSource tm.2 ∈ existing then (acc.1, acc.2 + 1)
    else (acc.1 ++ [(tm.1, { source := some (effSource tm.2) })], acc.2)
  else acc

/-- Models `RAGSystem.add_documents` (rag_system.py lines 76-151): pad the
metadata list, read the existing sources once, filter the documents,
split the survivors into chunks (metadata inherited) and append all
chunks to the backend. -/
def add_documents (texts : List Str) (metas : List ChunkMeta) (skipDuplicates : Bool)
    (backend : List ChunkMeta) : AddResult :=
  if texts = [] then { backend := backend, addedDocs := 0, skippedCount := 0 }
  else
    let metas2 := padMetas texts.length metas
    let existing := if skipDuplicates then get_existing_sources backend else []
    let folded := (texts.zip metas2).foldl (ingestFold skipDuplicates existing) ([], 0)
    if folded.1 = [] then { backend := backend, addedDocs := 0, skippedCount := folded.2 }
    else
      let chunks := folded.1.flatMap (fun tm => (splitText tm.1).map (fun _ => tm.2))
      if chunks = [] then { backend := backend, addedDocs := 0, skippedCount := folded.2 }
      else { backend := backend ++ chunks, addedDocs := folded.1.length,
             skippedCount := folded.2 }

/-! ### Concrete instances used by the claims -/

/-- A page body of 51 characters (just over the 50-character content
threshold). -/
def c51 : Str := List.replicate 51 'x'

/-- Base URL of the synthetic site used for the crawl scenarios. -/
def c2Base : Str := ("http://e").toList

/-- The i-th child page URL of the synthetic site. -/
def c2Link (i : ℕ) : Str := ("http://e/").toList ++ Nat.toDigits 10 i

/-- The 19 links on the seed page of the synthetic 20-page site. -/
def c2Links : List Str := (List.range' 1 19).map c2Link

/-- A 20-page synthetic site (seed plus 19 children, no PDFs), crawled
with `max_pages = 5`. -/
def c2Env : CrawlEnv :=
  { baseUrl := c2Base, maxPages := 5, maxDepth := 8, includePdfs := true,
    fetch := fun u =>
      if u = c2Base then some { title := ("t").toList, content := c51, hrefs := c2Links }
      else if u ∈ c2Links then some { title := ("t").toList, content := c51, hrefs := [] }
      else none,
    pdfExtract := fun _ => none }

/-- The `max_pages = 5` crawl of the 20-page site, from an empty tracker
and no checkpoint. -/
def c2Run : Option CrawlState := scrape_website c2Env [] {} 100 [c2Base]

/-- The final state of that crawl. -/
def c2Final : CrawlState := c2Run.getD {}

/-- A raw (mixed-case) PDF link, as it appears in a page's href. -/
def c7PdfRaw : Str := ("http://e/D.pdf").toList

/-- A one-page site whose seed page links to a mixed-case PDF; PDF
extraction fails (so the worklist pass takes its marking path). -/
def c7Env : CrawlEnv :=
  { baseUrl := c2Base, maxPages := 5, maxDepth := 8, includePdfs := true,
    fetch := fun u =>
      if u = c2Base then some { title := ("t").toList, content := c51, hrefs := [c7PdfRaw] }
      else none,
    pdfExtract := fun _ => none }

/-- The crawl of the PDF-link site. -/
def c7Run : Option CrawlState := scrape_website c7Env [] {} 100 [c2Base]

/-- The final state of the PDF-link crawl. -/
def c7Final : CrawlState := c7Run.getD {}

/-- A seed URL three path segments below the base. -/
def c1Seed : Str := ("http://e/a/b/c").toList

/-- The initial crawl state for that seed (no checkpoint, empty tracker). -/
def c1Init : CrawlState := initCrawlState [] {} [c1Seed]

/-- A 65-character English sentence used as a successfully extracted PDF
text. -/
def c3Text : Str :=
  ("the quick brown fox jumps over the lazy dog again and again today").toList

/-- The URL of the PDF said to contain `c3Text`. -/
def c3Url : Str := ("http://e/x.pdf").toList

/-- The single-character-token string from the specification's garbled
example. -/
def c6Garbled : Str := ("a b c d e f g h").toList

/-- A normal English paragraph of at least 50 characters with common
words. -/
def c6Paragraph : Str :=
  ("the quick brown fox jumps over the lazy dog again and again today").toList

/-- A 35-character sentence with 10 words that fails every one of the
five listed garbled conditions but is shorter than 50 characters. -/
def c6Short : Str := ("the cat and dog sat on a mat to nap").toList

/-- A chunk metadata carrying a concrete source URL. -/
def c4MetaU : ChunkMeta := { source := some (("http://e/u").toList) }

/-- A backend with 10000 sourceless chunks followed by one chunk whose
source is `http://e/u` (beyond the `collection.get(limit=10000)` window). -/
def c4BigBackend : List ChunkMeta := List.replicate 10000 (⟨none⟩ : ChunkMeta) ++ [c4MetaU]

/-- A short document text. -/
def c4Text : Str := ("hello world this is text").toList

/-- First ingestion of the document into an empty backend. -/
def c4Call1 : AddResult := add_documents [c4Text] [c4MetaU] true []

/-- Second ingestion of the same document against the backend produced by
the first call. -/
def c4Call2 : AddResult := add_documents [c4Text] [c4MetaU] true c4Call1.backend

/-- A checkpoint that exists (non-default: it has a pending frontier and a
timestamp) but whose `scraped_content` is empty. -/
def c5Checkpoint : CheckpointData :=
  { scraped_content := [], pdf_urls := [], visited_urls := [],
    urls_to_visit := [("http://e/a").toList], scraped_count := 0,
    last_updated := some (("2024-01-01").toList) }

/-- The document that `extract_text` produces for `c3Text` at `c3Url`. -/
def c3Doc : PdfDoc :=
  { url := c3Url, content := c3Text, title := ("x").toList,
    quality_score := calculate_text_quality_score c3Text, page_count := 3 }

/-- A checkpoint with one scraped page, a pending frontier and a
timestamp (a resumable snapshot). -/
def c5FullCheckpoint : CheckpointData :=
  { scraped_content := [{ url := ("http://e/p").toList, content := c51 }],
    pdf_urls := [("http://e/y.pdf").toList],
    visited_urls := [("http://e/p").toList],
    urls_to_visit := [("http://e/a").toList, ("http://e/b").toList],
    scraped_count := 1,
    last_updated := some (("2024-01-01").toList) }

/-- A chunk metadata with a fresh source URL, used for same-call
duplicate scenarios. -/
def c9Meta : ChunkMeta := { source := some (("http://e/new").toList) }

theorem lowerChar_eq_hash_iff (c : Char) : lowerChar c = '#' ↔ c = '#' := by
  constructor
  · intro h
    unfold lowerChar at h
    split at h <;> simp_all
  · intro h
    subst h
    rfl

theorem lowerChar_eq_slash_iff (c : Char) : lowerChar c = '/' ↔ c = '/' := by
  constructor
  · intro h
    unfold lowerChar at h
    split at h <;> simp_all
  · intro h
    subst h
    rfl

theorem lowerChar_fixed_on_lower :
    ∀ d ∈ [('a' : Char), 'b', 'c', 'd', 'e', 'f', 'g', 'h', 'i', 'j', 'k', 'l', 'm',
      'n', 'o', 'p', 'q', 'r', 's', 't', 'u', 'v', 'w', 'x', 'y', 'z'],
    lowerChar d = d := by decide

theorem lowerChar_idem (c : Char) : lowerChar (lowerChar c) = lowerChar c := by
  have h : lowerChar c = c ∨ lowerChar c ∈
      [('a' : Char), 'b', 'c', 'd', 'e', 'f', 'g', 'h', 'i', 'j', 'k', 'l', 'm',
       'n', 'o', 'p', 'q', 'r', 's', 't', 'u', 'v', 'w', 'x', 'y', 'z'] := by
    unfold lowerChar
    split
    all_goals first
      | exact Or.inr (by decide)
      | exact Or.inl rfl
  rcases h with h | h
  · rw [h, h]
  · exact lowerChar_fixed_on_lower _ h

theorem mem_rstripSlash {c : Char} {s : Str} (h : c ∈ rstripSlash s) : c ∈ s := by
  unfold rstripSlash at h
  rw [List.mem_reverse] at h
  have := (List.dropWhile_sublist (l := s.reverse) (fun c => c = '/')).mem h
  rwa [List.mem_reverse] at this

theorem mem_dropFragment {c : Char} {s : Str} (h : c ∈ dropFragment s) : c ∈ s := by
  unfold dropFragment at h
  split at h
  · exact (List.takeWhile_sublist _).mem h
  · exact h

theorem dropWhile_self_idem {p : Char → Bool} (l : Str) :
    (l.dropWhile p).dropWhile p = l.dropWhile p := by
  induction l with
  | nil => rfl
  | cons c t ih =>
    by_cases h : p c
    · simp [List.dropWhile_cons, h, ih]
    · simp [List.dropWhile_cons, h]

theorem rstripSlash_idem (s : Str) : rstripSlash (rstripSlash s) = rstripSlash s := by
  unfold rstripSlash
  rw [List.reverse_reverse, dropWhile_self_idem]

theorem hash_not_mem_dropFragment (s : Str) : '#' ∉ dropFragment s := by
  unfold dropFragment
  split
  · intro h
    have := List.mem_takeWhile_imp h
    simp at this
  · next h => exact h

theorem hash_not_mem_normalize (u : Str) : '#' ∉ normalize_url u := by
  unfold normalize_url lowerStr
  intro h
  rw [List.mem_map] at h
  obtain ⟨c, hc, hlow⟩ := h
  rw [lowerChar_eq_hash_iff] at hlow
  subst hlow
  exact hash_not_mem_dropFragment _ hc

/-- Key normalization lemma: on a string with no `'#'`, normalization is
idempotent (the general statement fails because fragment removal can
re-expose a trailing slash). -/
theorem normalize_idem_of_no_hash {u : Str} (h : '#' ∉ u) :
    normalize_url (normalize_url u) = normalize_url u := by
  have hstrip : '#' ∉ rstripSlash u := fun hc => h (mem_rstripSlash hc)
  have hfrag : dropFragment (rstripSlash u) = rstripSlash u := by
    unfold dropFragment
    simp [hstrip]
  have hn : normalize_url u = lowerStr (rstripSlash u) := by
    unfold normalize_url
    rw [hfrag]
  rw [hn]
  -- the lowered stripped string has no `'#'`
  have hnohash : '#' ∉ lowerStr (rstripSlash u) := by
    unfold lowerStr
    intro hc
    rw [List.mem_map] at hc
    obtain ⟨c, hc, hlow⟩ := hc
    rw [lowerChar_eq_hash_iff] at hlow
    subst hlow
    exact hstrip hc
  -- stripping again does nothing: there is no trailing slash left
  have hrev : (rstripSlash u).reverse.dropWhile (fun c => decide (c = '/')) =
      (rstripSlash u).reverse := by
    unfold rstripSlash
    rw [List.reverse_reverse, dropWhile_self_idem]
  have hcongr : ((fun c => decide (c = '/')) ∘ lowerChar) = fun c => decide (c = '/') := by
    funext c
    simp [Function.comp, lowerChar_eq_slash_iff]
  have hstrip2 : rstripSlash (lowerStr (rstripSlash u)) = lowerStr (rstripSlash u) := by
    show (((rstripSlash u).map lowerChar).reverse.dropWhile (fun c => decide (c = '/'))).reverse =
      (rstripSlash u).map lowerChar
    rw [← List.map_reverse, List.dropWhile_map, hcongr, hrev, List.map_reverse,
      List.reverse_reverse]
  unfold normalize_url
  rw [hstrip2]
  have hfrag2 : dropFragment (lowerStr (rstripSlash u)) = lowerStr (rstripSlash u) := by
    unfold dropFragment
    simp only [hnohash, if_neg]
    simp [hnohash]
  rw [hfrag2]
  unfold lowerStr
  rw [List.map_map]
  congr 1
  funext c
  exact lowerChar_idem c


/-! ### Bridge lemmas for the kernel-computable rational helpers -/

theorem qAdd_eq (a b : ℚ) : qAdd a b = a + b := by
  unfold qAdd
  rw [Rat.mkRat_eq_div]
  conv_rhs => rw [← Rat.num_div_den a, ← Rat.num_div_den b]
  have ha : (a.den : ℚ) ≠ 0 := by exact_mod_cast a.den_nz
  have hb : (b.den : ℚ) ≠ 0 := by exact_mod_cast b.den_nz
  field_simp
  try push_cast
  try ring

theorem qSub_eq (a b : ℚ) : qSub a b = a - b := by
  unfold qSub
  rw [Rat.mkRat_eq_div]
  conv_rhs => rw [← Rat.num_div_den a, ← Rat.num_div_den b]
  have ha : (a.den : ℚ) ≠ 0 := by exact_mod_cast a.den_nz
  have hb : (b.den : ℚ) ≠ 0 := by exact_mod_cast b.den_nz
  field_simp
  try push_cast
  try ring

theorem qMul_eq (a b : ℚ) : qMul a b = a * b := by
  unfold qMul
  rw [Rat.mkRat_eq_div]
  conv_rhs => rw [← Rat.num_div_den a, ← Rat.num_div_den b]
  have ha : (a.den : ℚ) ≠ 0 := by exact_mod_cast a.den_nz
  have hb : (b.den : ℚ) ≠ 0 := by exact_mod_cast b.den_nz
  field_simp
  try push_cast
  try ring

theorem qMin_eq (a b : ℚ) : qMin a b = min a b := (min_def a b).symm

theorem qMax_eq (a b : ℚ) : qMax a b = max a b := (max_def a b).symm

theorem mkRat_zero_one : mkRat 0 1 = (0 : ℚ) := by
  rw [Rat.mkRat_eq_div]
  norm_num

theorem mkRat_one_one : mkRat 1 1 = (1 : ℚ) := by
  rw [Rat.mkRat_eq_div]
  norm_num

theorem mkRat_three_ten : mkRat 3 10 = (3 : ℚ) / 10 := by
  rw [Rat.mkRat_eq_div]
  norm_num

/-- The quality score is clamped: it always lies in `[0, 1]`. -/
theorem calc_score_bounds (t : Str) :
    0 ≤ calculate_text_quality_score t ∧ calculate_text_quality_score t ≤ 1 := by
  unfold calculate_text_quality_score
  split
  · rw [mkRat_zero_one]
    norm_num
  · rw [qMax_eq, qMin_eq, mkRat_zero_one, mkRat_one_one]
    constructor
    · exact le_max_left 0 _
    · exact max_le (by norm_num) (min_le_left 1 _)

/-! ### Claim C8: idempotence of URL normalization -/

/-- C8 counterexample: normalization is NOT idempotent as claimed.  For
`http://e/#f`, stripping happens before fragment removal, so one pass
leaves the trailing slash that the fragment had protected
(`http://e/`), and a second pass removes it (`http://e`). -/
theorem C8_counterexample :
    normalize_url (normalize_url (("http://e/#f").toList)) ≠
      normalize_url (("http://e/#f").toList) := by decide

/-- C8 (amended): `_normalize_url` is idempotent on every URL that
contains no `'#'`; equivalently, non-idempotence requires a fragment
whose removal re-exposes a trailing slash. -/
theorem C8_theorem (u : Str) (h : '#' ∉ u) :
    normalize_url (normalize_url u) = normalize_url u :=
  normalize_idem_of_no_hash h

/-- Witness for C8 at the fragment-free URL `http://E/page/`. -/
theorem C8_witness :
    '#' ∉ (("http://E/page/").toList) ∧
      normalize_url (normalize_url (("http://E/page/").toList)) =
        normalize_url (("http://E/page/").toList) :=
  ⟨by decide, C8_theorem (("http://E/page/").toList) (by decide)⟩

/-! ### Claim C10: the depth computation -/

/-- C10: `_get_url_depth` is the difference of non-empty path-segment
counts (possibly negative), the `scrape_page` depth gate passes exactly
when the URL has at most `max_depth` more segments than the base, and the
gate is independent of the URL lying under the base path: a same-domain
URL outside the base path with fewer segments still passes. -/
theorem C10_theorem :
    (∀ b u : Str, get_url_depth b u =
        (segCount (urlPath u) : ℤ) - (segCount (urlPath b) : ℤ)) ∧
    (get_url_depth (("http://e/a/b").toList) (("http://e/c").toList) < 0) ∧
    (∀ b u : Str, ∀ d : ℕ, depth_check b u d = true ↔
        (segCount (urlPath u) : ℤ) ≤ (segCount (urlPath b) : ℤ) + d) ∧
    ((urlPath (("http://e/x/y").toList)).isPrefixOf
        (urlPath (("http://e/z").toList)) = false ∧
      urlNetloc (("http://e/z").toList) = urlNetloc (("http://e/x/y").toList) ∧
      depth_check (("http://e/x/y").toList) (("http://e/z").toList) 8 = true) := by
  refine ⟨fun b u => rfl, by decide, fun b u d => ?_, by decide⟩
  unfold depth_check get_url_depth
  rw [decide_eq_true_iff]
  omega

/-! ### Claim C6: the garbled-text detector -/

/-- C6 counterexample: the detector is not equivalent to the five listed
conditions.  "the cat and dog sat on a mat to nap" (35 characters, 10
words) fails every listed condition, yet the code classifies it garbled
because of its unlisted under-50-characters check. -/
theorem C6_counterexample :
    is_garbled_text c6Short = true ∧ garbled_claim_conditions c6Short = false := by
  constructor
  · decide
  · decide

/-- C6 (amended): text is classified garbled exactly when it is empty or
shorter than 50 characters, or satisfies one of the five listed
conditions; in particular `"a b c d e f g h"` is garbled and a normal
English paragraph of at least 50 characters with common words is not. -/
theorem C6_theorem :
    (∀ t : Str, is_garbled_text t =
        (decide (t = []) || decide (t.length < 50) || garbled_claim_conditions t)) ∧
    is_garbled_text c6Garbled = true ∧
    is_garbled_text c6Paragraph = false := by
  refine ⟨fun t => ?_, by decide, by decide⟩
  simp only [is_garbled_text, garbled_claim_conditions]
  by_cases h0 : t = [] ∨ t.length < 50
  · rw [if_pos h0]
    rcases h0 with h | h <;> simp [h]
  · rw [if_neg h0]
    push_neg at h0
    have h1 : decide (t = []) = false := by simp [h0.1]
    have h2 : decide (t.length < 50) = false := by
      simp only [decide_eq_false_iff_not]
      omega
    rw [h1, h2]
    by_cases g1 : garbledFewWords t <;>
      by_cases g2 : garbledManySingles t <;>
        by_cases g3 : garbledSpacedSingles t <;>
          by_cases g4 : garbledLowAvg t <;>
            by_cases g5 : garbledFewPatterns t <;>
              simp [g1, g2, g3, g4, g5]

/-! ### Claim C5: checkpoint adoption at session start -/

/-- C5 counterexample: a checkpoint can exist (here: non-default, with a
pending frontier and a timestamp) and still not be adopted, because the
resume condition additionally requires a non-empty `scraped_content`.
The session starts from the seeds instead. -/
theorem C5_counterexample :
    c5Checkpoint ≠ ({} : CheckpointData) ∧
      (initCrawlState [] c5Checkpoint [c2Base]).urls_to_visit ≠
        c5Checkpoint.urls_to_visit ∧
      (initCrawlState [] c5Checkpoint [c2Base]).urls_to_visit =
        [c2Base].map normalize_url := by
  refine ⟨by decide, by decide, by decide⟩

/-- C5 (amended): the crawler adopts the checkpoint's saved
`scraped_content`, `pdf_urls`, `visited_urls` and `urls_to_visit` as its
initial state exactly when the checkpoint's `scraped_content` is
non-empty and its `last_updated` is set; otherwise it starts from the
normalised seed URLs. -/
theorem C5_theorem (tracker0 : List Str) (cp : CheckpointData) (seeds : List Str)
    (h : checkpointTruthy cp = true) :
    (initCrawlState tracker0 cp seeds).scraped_content = cp.scraped_content ∧
    (initCrawlState tracker0 cp seeds).pdf_urls = cp.pdf_urls ∧
    (initCrawlState tracker0 cp seeds).visited_urls = cp.visited_urls ∧
    (initCrawlState tracker0 cp seeds).urls_to_visit = cp.urls_to_visit := by
  unfold initCrawlState
  rw [if_pos h]
  exact ⟨rfl, rfl, rfl, rfl⟩

/-- Witness for C5 at a concrete resumable checkpoint. -/
theorem C5_witness :
    (initCrawlState [] c5FullCheckpoint [c2Base]).scraped_content =
        c5FullCheckpoint.scraped_content ∧
    (initCrawlState [] c5FullCheckpoint [c2Base]).pdf_urls = c5FullCheckpoint.pdf_urls ∧
    (initCrawlState [] c5FullCheckpoint [c2Base]).visited_urls =
        c5FullCheckpoint.visited_urls ∧
    (initCrawlState [] c5FullCheckpoint [c2Base]).urls_to_visit =
        c5FullCheckpoint.urls_to_visit :=
  C5_theorem [] c5FullCheckpoint [c2Base] (by decide)

/-! ### Claim C2: loop termination and the 20-page scenario -/

theorem guard_false_cases {env : CrawlEnv} {s : CrawlState}
    (h : crawlGuard env s = false) :
    s.urls_to_visit = [] ∨ env.maxPages ≤ s.scraped_content.length := by
  unfold crawlGuard at h
  rcases Bool.and_eq_false_iff.mp h with h | h
  · left
    simpa using h
  · right
    simpa using h

theorem crawlLoop_guard_false_at_exit (env : CrawlEnv) (fuel : ℕ) :
    ∀ s s' : CrawlState, crawlLoop env fuel s = some s' →
      s'.urls_to_visit = [] ∨ env.maxPages ≤ s'.scraped_content.length := by
  induction fuel with
  | zero =>
    intro s s' h
    unfold crawlLoop at h
    split at h
    · cases h
    · next hg =>
      cases h
      exact guard_false_cases (Bool.not_eq_true _ ▸ Bool.of_not_eq_true hg)
  | succ n ih =>
    intro s s' h
    unfold crawlLoop at h
    split at h
    · exact ih _ _ h
    · next hg =>
      cases h
      exact guard_false_cases (Bool.not_eq_true _ ▸ Bool.of_not_eq_true hg)

theorem crawlLoop_stops_when_guard_false (env : CrawlEnv) (fuel : ℕ) (s : CrawlState)
    (h : crawlGuard env s = false) : crawlLoop env fuel s = some s := by
  cases fuel <;> simp [crawlLoop, h]

/-- C2: crawling the synthetic 20-page site (seed plus 19 children, no
PDFs) with `max_pages = 5` returns exactly 5 ScrapedDocuments; the 15
never-attempted URLs remain in the frontier and in the final checkpoint
and are absent from the Tracker; and in general the HTML traversal loop
terminates exactly when the frontier is empty or the number of scraped
results has reached `max_pages`. -/
theorem C2_theorem :
    (c2Run.isSome = true ∧
     c2Final.scraped_content.length = 5 ∧
     c2Final.urls_to_visit.length = 15 ∧
     c2Final.urls_to_visit.all (fun u => !(c2Final.tracker.contains u)) = true ∧
     c2Final.checkpointData.urls_to_visit = c2Final.urls_to_visit) ∧
    (∀ (env : CrawlEnv) (fuel : ℕ) (s s' : CrawlState), crawlLoop env fuel s = some s' →
      s'.urls_to_visit = [] ∨ env.maxPages ≤ s'.scraped_content.length) ∧
    (∀ (env : CrawlEnv) (fuel : ℕ) (s : CrawlState), crawlGuard env s = false →
      crawlLoop env fuel s = some s) :=
  ⟨⟨by decide, by decide, by decide, by decide, by decide⟩,
   fun env fuel s s' h => crawlLoop_guard_false_at_exit env fuel s s' h,
   fun env fuel s h => crawlLoop_stops_when_guard_false env fuel s h⟩

/-- Witness for C2's general termination statement, applied to the
exit of the loop at an empty frontier. -/
theorem C2_witness :
    ({} : CrawlState).urls_to_visit = [] ∨
      c2Env.maxPages ≤ ({} : CrawlState).scraped_content.length :=
  C2_theorem.2.1 c2Env 0 {} {} (by rfl)

/-! ### Claim C1: depth bound at the enqueue sites -/

theorem maybeCheckpoint_frontier (env : CrawlEnv) (s : CrawlState) :
    (maybeCheckpoint env s).urls_to_visit = s.urls_to_visit := by
  unfold maybeCheckpoint
  split <;> rfl

theorem processLink_frontier (env : CrawlEnv) (s : CrawlState) (l u : Str)
    (h : u ∈ (processLink env s l).urls_to_visit) :
    u ∈ s.urls_to_visit ∨ depth_check env.baseUrl u env.maxDepth = true := by
  simp only [processLink] at h
  split at h
  · split at h
    · exact Or.inl h
    · exact Or.inl h
  · split at h
    · next hguard =>
      simp only [List.mem_append, List.mem_singleton] at h
      rcases h with h | h
      · exact Or.inl h
      · subst h
        exact Or.inr hguard.2.2.2.2
    · exact Or.inl h

theorem foldl_processLink_frontier (env : CrawlEnv) (links : List Str) (s : CrawlState)
    (u : Str) (h : u ∈ (links.foldl (processLink env) s).urls_to_visit) :
    u ∈ s.urls_to_visit ∨ depth_check env.baseUrl u env.maxDepth = true := by
  induction links generalizing s with
  | nil => exact Or.inl h
  | cons l ls ih =>
    simp only [List.foldl_cons] at h
    rcases ih _ h with h' | h'
    · exact processLink_frontier env s l u h'
    · exact Or.inr h'

/-- C1 (amended): during a step of the HTML traversal loop, every URL on
the resulting frontier either was already on the frontier or passed the
link-discovery depth gate (`depth ≤ max_depth`); seed URLs at session
start and the frontier adopted from a checkpoint are enqueued with no
depth check (see the counterexample). -/
theorem C1_theorem (env : CrawlEnv) (s : CrawlState) (u : Str)
    (h : u ∈ (crawlStep env s).urls_to_visit) :
    u ∈ s.urls_to_visit ∨ depth_check env.baseUrl u env.maxDepth = true := by
  simp only [crawlStep] at h
  split at h
  · exact Or.inl h
  · next originalUrl rest heq =>
    rw [heq]
    split at h
    · left
      exact List.mem_cons_of_mem _ h
    · split at h
      · left
        exact List.mem_cons_of_mem _ h
      · split at h
        · next doc su hsp =>
          rw [maybeCheckpoint_frontier] at h
          rcases foldl_processLink_frontier env doc.links _ u h with h' | h'
          · left
            exact List.mem_cons_of_mem _ h'
          · exact Or.inr h'
        · rw [maybeCheckpoint_frontier] at h
          left
          exact List.mem_cons_of_mem _ h

/-- Witness for C1's step statement: the first child link of the
synthetic site is on the frontier after the first step. -/
theorem C1_witness :
    c2Link 1 ∈ (initCrawlState [] {} [c2Base]).urls_to_visit ∨
      depth_check c2Env.baseUrl (c2Link 1) c2Env.maxDepth = true :=
  C1_theorem c2Env (initCrawlState [] {} [c2Base]) (c2Link 1) (by decide)

/-- C1 counterexample: a seed URL three segments below the base is
enqueued onto the frontier at session start even though it fails the
depth gate for `max_depth = 2` — the seed and checkpoint enqueue sites
perform no depth check. -/
theorem C1_counterexample :
    c1Seed ∈ c1Init.urls_to_visit ∧ depth_check c2Base c1Seed 2 = false := by
  refine ⟨by decide, by decide⟩

/-! ### Claim C7: normalization of tracker entries -/

theorem addToSet_cases {s : List Str} {u e : Str} (h : e ∈ addToSet s u) :
    e ∈ s ∨ e = u := by
  unfold addToSet at h
  split at h
  · exact Or.inl h
  · simpa using h

theorem maybeCheckpoint_tracker (env : CrawlEnv) (s : CrawlState) :
    (maybeCheckpoint env s).tracker = s.tracker := by
  unfold maybeCheckpoint
  split <;> rfl

theorem no_hash_of_valid {inc : Bool} {b u : Str}
    (h : is_valid_url inc b u = true) : '#' ∉ u := by
  intro hmem
  simp only [is_valid_url, Bool.and_eq_true, Bool.not_eq_true', Bool.or_eq_false_iff] at h
  have hc : u.contains '#' = false := h.2.1.1.1.1.2
  simp at hc
  exact hc hmem

theorem get_links_all_valid (env : CrawlEnv) (fr : FetchResult) :
    ∀ l ∈ get_links env fr, is_valid_url env.includePdfs env.baseUrl l = true := by
  intro l hl
  unfold get_links at hl
  rw [List.mem_dedup] at hl
  have inv : ∀ (ps : List Str) (acc : List Str),
      (∀ x ∈ acc, is_valid_url env.includePdfs env.baseUrl x = true) →
      ∀ x ∈ ps.foldl
        (fun acc p =>
          if p ∉ acc ∧ is_valid_url env.includePdfs env.baseUrl p then acc ++ [p] else acc)
        acc,
      is_valid_url env.includePdfs env.baseUrl x = true := by
    intro ps
    induction ps with
    | nil => intro acc hacc x hx; exact hacc x hx
    | cons p pt ih =>
      intro acc hacc x hx
      simp only [List.foldl_cons] at hx
      refine ih _ ?_ x hx
      intro y hy
      split at hy
      · next hcond =>
        rcases List.mem_append.mp hy with hy | hy
        · exact hacc y hy
        · rw [List.mem_singleton.mp hy]
          exact hcond.2
      · exact hacc y hy
  refine inv fr.pdfHrefs _ ?_ l hl
  intro y hy
  exact (List.mem_filter.mp hy).2

theorem scrape_page_some_links (env : CrawlEnv) (su : List Str) (url : Str)
    (doc : ScrapedDoc) (su' : List Str)
    (h : scrape_page env su url = (some doc, su')) :
    ∀ l ∈ doc.links, is_valid_url env.includePdfs env.baseUrl l = true := by
  simp only [scrape_page] at h
  split at h
  · split at h
    · simp at h
    · split at h
      · next d _ =>
        intro l hl
        rw [Prod.mk.injEq] at h
        obtain ⟨hdoc, _⟩ := h
        rw [← Option.some.inj hdoc] at hl
        simp at hl
      · simp at h
  · split at h
    · simp at h
    · split at h
      · simp at h
      · split at h
        · simp at h
        · split at h
          · simp at h
          · next fr hfr =>
            split at h
            · rw [Prod.mk.injEq] at h
              obtain ⟨hdoc, _⟩ := h
              rw [← Option.some.inj hdoc]
              intro l hl
              exact get_links_all_valid env fr l hl
            · simp at h

theorem processLink_tracker (env : CrawlEnv) (s : CrawlState) (l e : Str)
    (hl : '#' ∉ l) (h : e ∈ (processLink env s l).tracker) :
    e ∈ s.tracker ∨ normalize_url e = e := by
  simp only [processLink] at h
  split at h
  · split at h
    · rcases addToSet_cases h with h | h
      · exact Or.inl h
      · subst h
        exact Or.inr (normalize_idem_of_no_hash hl)
    · exact Or.inl h
  · split at h
    · exact Or.inl h
    · exact Or.inl h

theorem foldl_processLink_tracker (env : CrawlEnv) (links : List Str) (s : CrawlState)
    (e : Str) (hfree : ∀ l ∈ links, '#' ∉ l)
    (h : e ∈ (links.foldl (processLink env) s).tracker) :
    e ∈ s.tracker ∨ normalize_url e = e := by
  induction links generalizing s with
  | nil => exact Or.inl h
  | cons l ls ih =>
    simp only [List.foldl_cons] at h
    rcases ih _ (fun x hx => hfree x (List.mem_cons_of_mem _ hx)) h with h' | h'
    · exact processLink_tracker env s l e (hfree l (List.mem_cons_self _ _)) h'
    · exact Or.inr h'

/-- C7 (amended): during a step of the HTML traversal loop (from a state
whose frontier entries contain no fragment character, as produced by the
seed and link enqueue sites), every URL newly recorded in the Tracker is
in normalized form (a fixpoint of `_normalize_url`).  The PDF worklist
pass, in contrast, records raw worklist strings (see the
counterexample). -/
theorem C7_theorem (env : CrawlEnv) (s : CrawlState)
    (hfree : ∀ u ∈ s.urls_to_visit, '#' ∉ u) (e : Str)
    (h : e ∈ (crawlStep env s).tracker) :
    e ∈ s.tracker ∨ normalize_url e = e := by
  simp only [crawlStep] at h
  split at h
  · exact Or.inl h
  · next originalUrl rest heq =>
    have horig : '#' ∉ originalUrl := hfree originalUrl (by rw [heq]; exact List.mem_cons_self _ _)
    split at h
    · exact Or.inl h
    · split at h
      · rcases addToSet_cases h with h | h
        · exact Or.inl h
        · subst h
          exact Or.inr (normalize_idem_of_no_hash horig)
      · split at h
        · next doc su hsp =>
          rw [maybeCheckpoint_tracker] at h
          have hlinks : ∀ l ∈ doc.links, '#' ∉ l := fun l hl =>
            no_hash_of_valid (scrape_page_some_links env _ _ doc su hsp l hl)
          rcases foldl_processLink_tracker env doc.links _ e hlinks h with h | h
          · rcases addToSet_cases h with h | h
            · exact Or.inl h
            · subst h
              exact Or.inr (normalize_idem_of_no_hash horig)
          · exact Or.inr h
        · rw [maybeCheckpoint_tracker] at h
          exact Or.inl h

/-- Witness for C7's step statement at the first step of the synthetic
crawl. -/
theorem C7_witness :
    c2Base ∈ (initCrawlState [] {} [c2Base]).tracker ∨
      normalize_url c2Base = c2Base :=
  C7_theorem c7Env (initCrawlState [] {} [c2Base]) (by decide) c2Base (by decide)

/-- C7 counterexample: after the crawl of the PDF-link site, the Tracker
contains the raw mixed-case worklist entry `http://e/D.pdf`, which is not
in normalized form — the PDF worklist pass records raw URLs. -/
theorem C7_counterexample :
    c7Run.isSome = true ∧ c7PdfRaw ∈ c7Final.tracker ∧
      normalize_url c7PdfRaw ≠ c7PdfRaw := by
  refine ⟨by decide, by decide, by decide⟩

/-! ### Claim C3: the PDF quality gate -/

/-- C3: every document `extract_text` returns carries the quality score
computed on its (cleaned, possibly strategy-swapped) content, that score
is at least 0.3 (documents scoring below 0.3 are discarded as `None`) and
at most 1; and the score function itself is clamped to `[0, 1]` for every
input. -/
theorem C3_theorem :
    (∀ t : Str, 0 ≤ calculate_text_quality_score t ∧ calculate_text_quality_score t ≤ 1) ∧
    (∀ (dl : Bool) (plumber pypdf2 ocr : Str) (oa : Bool) (pc : ℕ) (url : Str)
        (d : PdfDoc), extract_text dl plumber pypdf2 ocr oa pc url = some d →
      d.quality_score = calculate_text_quality_score d.content ∧
      mkRat 3 10 ≤ d.quality_score ∧ d.quality_score ≤ 1) := by
  refine ⟨calc_score_bounds, ?_⟩
  intro dl plumber pypdf2 ocr oa pc url d h
  simp only [extract_text] at h
  split at h
  · cases h
  · split at h
    · cases h
    · next t3 _ =>
      simp only [extract_text_core] at h
      split at h
      · cases h
      · next hq =>
        rw [← Option.some.inj h]
        exact ⟨rfl, le_of_not_lt hq, (calc_score_bounds _).2⟩

/-- Witness for C3 at the concrete extraction of `c3Text`. -/
theorem C3_witness :
    c3Doc.quality_score = calculate_text_quality_score c3Doc.content ∧
      mkRat 3 10 ≤ c3Doc.quality_score ∧ c3Doc.quality_score ≤ 1 :=
  C3_theorem.2 true c3Text [] [] false 3 c3Url c3Doc (by decide)

/-! ### Claim C4: corpus-level deduplication in add_documents -/

theorem filterMap_source_replicate_none (n : ℕ) :
    (List.replicate n (⟨none⟩ : ChunkMeta)).filterMap (fun m => m.source) = [] := by
  induction n with
  | zero => rfl
  | succ k ih => simp [List.replicate_succ, List.filterMap_cons, ih]

theorem c4_big_sources : get_existing_sources c4BigBackend = [] := by
  have htake : (List.replicate 10000 (⟨none⟩ : ChunkMeta) ++ [c4MetaU]).take 10000 =
      List.replicate 10000 (⟨none⟩ : ChunkMeta) := by
    have h := List.take_left (List.replicate 10000 (⟨none⟩ : ChunkMeta)) [c4MetaU]
    rw [List.length_replicate] at h
    exact h
  unfold get_existing_sources c4BigBackend
  rw [htake, filterMap_source_replicate_none]
  rfl

theorem splitText_ne_nil_pre (t : Str) : splitText t ≠ [] := by
  unfold splitText
  cases h : t.length with
  | zero => simp [splitTextAux]
  | succ n =>
    simp only [splitTextAux]
    split <;> simp

/-- C4 counterexample: a source CAN be present in the storage backend and
still not be skipped — `get_existing_sources` reads only the first 10000
stored chunks (`collection.get(limit=10000)`), so a document whose source
sits in chunk 10001 is added, not skipped. -/
theorem add_documents_fresh (t : Str) (m : ChunkMeta) (b : List ChunkMeta)
    (hpos : 0 < (stripWs t).length) (hsrc : get_existing_sources b = []) :
    (add_documents [t] [m] true b).skippedCount = 0 ∧
    (add_documents [t] [m] true b).addedDocs = 1 := by
  constructor <;>
    simp [add_documents, padMetas, ingestFold, hsrc, hpos, splitText_ne_nil_pre]

theorem C4_counterexample :
    c4MetaU ∈ c4BigBackend ∧
      (add_documents [c4Text] [c4MetaU] true c4BigBackend).skippedCount = 0 ∧
      (add_documents [c4Text] [c4MetaU] true c4BigBackend).addedDocs = 1 := by
  have hmem : c4MetaU ∈ c4BigBackend := by
    unfold c4BigBackend
    exact List.mem_append_right _ (List.mem_singleton_self _)
  have h := add_documents_fresh c4Text c4MetaU c4BigBackend (by decide) c4_big_sources
  exact ⟨hmem, h.1, h.2⟩

/-- C4 (amended): with duplicate-skipping enabled, a (non-empty) document
whose source is among the sources of the first 10000 stored chunks is
skipped and the backend is unchanged; in particular, for a small shared
backend, ingesting the same source URL in two successive calls adds the
document the first time (`added=1, skipped=0`) and skips it the second
time (`added=0, skipped=1`). -/
theorem C4_theorem :
    (∀ (t : Str) (m : ChunkMeta) (b : List ChunkMeta),
      0 < (stripWs t).length → effSource m ∈ get_existing_sources b →
      add_documents [t] [m] true b =
        { backend := b, addedDocs := 0, skippedCount := 1 }) ∧
    (c4Call1.addedDocs = 1 ∧ c4Call1.skippedCount = 0 ∧
     c4Call2.addedDocs = 0 ∧ c4Call2.skippedCount = 1) := by
  constructor
  · intro t m b h1 h2
    simp [add_documents, padMetas, ingestFold, h1, h2]
  · refine ⟨by decide, by decide, by decide, by decide⟩

/-- Witness for C4's general skip statement at a one-chunk backend. -/
theorem C4_witness :
    add_documents [c4Text] [c4MetaU] true [c4MetaU] =
      { backend := [c4MetaU], addedDocs := 0, skippedCount := 1 } :=
  C4_theorem.1 c4Text c4MetaU [c4MetaU] (by decide) (by decide)

/-! ### Claim C9: in-call duplicates are not deduplicated -/

theorem splitTextAux_ne_nil (fuel : ℕ) (t : Str) : splitTextAux fuel t ≠ [] := by
  cases fuel with
  | zero => simp [splitTextAux]
  | succ n =>
    simp only [splitTextAux]
    split <;> simp

theorem splitText_ne_nil (t : Str) : splitText t ≠ [] := splitTextAux_ne_nil _ _

theorem ingestFold_skipped (ex : List Str) (l : List (Str × ChunkMeta)) :
    ∀ acc : List (Str × ChunkMeta) × ℕ,
      (l.foldl (ingestFold true ex) acc).2 =
        acc.2 + (l.filter (fun tm =>
          decide (0 < (stripWs tm.1).length) && decide (effSource tm.2 ∈ ex))).length := by
  induction l with
  | nil => intro acc; simp
  | cons tm lt ih =>
    intro acc
    simp only [List.foldl_cons, List.filter_cons]
    by_cases h1 : 0 < (stripWs tm.1).length
    · by_cases h2 : effSource tm.2 ∈ ex
      · rw [ih]
        simp [ingestFold, h1, h2]
        omega
      · rw [ih]
        simp [ingestFold, h1, h2]
    · rw [ih]
      simp [ingestFold, h1]

/-- C9: within a single `add_documents` call, duplicate detection
consults only the sources present in the backend before the call: the
skipped count is exactly the number of (non-empty) inputs whose source
was already stored, and two documents passed in the same call with the
same fresh source are both added with none skipped. -/
theorem C9_theorem :
    (∀ (texts : List Str) (metas : List ChunkMeta) (b : List ChunkMeta),
      (add_documents texts metas true b).skippedCount =
        ((texts.zip (padMetas texts.length metas)).filter (fun tm =>
          decide (0 < (stripWs tm.1).length) &&
          decide (effSource tm.2 ∈ get_existing_sources b))).length) ∧
    (∀ (t1 t2 : Str) (m : ChunkMeta) (b : List ChunkMeta),
      0 < (stripWs t1).length → 0 < (stripWs t2).length →
      effSource m ∉ get_existing_sources b →
      (add_documents [t1, t2] [m, m] true b).addedDocs = 2 ∧
      (add_documents [t1, t2] [m, m] true b).skippedCount = 0) := by
  constructor
  · intro texts metas b
    have key := ingestFold_skipped (get_existing_sources b)
      (texts.zip (padMetas texts.length metas)) ([], 0)
    rw [Nat.zero_add] at key
    unfold add_documents
    split
    · next h => simp [h]
    · split
      · dsimp only
        split
        · simpa using key
        · split
          · simpa using key
          · simpa using key
      · next h => simp at h
  · intro t1 t2 m b h1 h2 h3
    constructor <;>
      simp [add_documents, padMetas, ingestFold, h1, h2, h3, splitText_ne_nil]

/-- Witness for C9 at two concrete documents with the same fresh source. -/
theorem C9_witness :
    (add_documents [("aa").toList, ("bb").toList] [c9Meta, c9Meta] true []).addedDocs = 2 ∧
    (add_documents [("aa").toList, ("bb").toList] [c9Meta, c9Meta] true []).skippedCount = 0 :=
  C9_theorem.2 (("aa").toList) (("bb").toList) c9Meta [] (by decide) (by decide) (by decide)
